import Mathlib

/-!
# Verification of the BrowserBridge session core (`src/core/browser.rs`)

Shallow embedding of the browser-session module. External collaborators
(the chromiumoxide driver, tokio timers, the rand crate, serde_json) are
modelled as oracles: a `Driver` record supplies the outcome of every
driver primitive, and each session operation is a pure function of the
driver returning its `Except` result together with the ordered trace of
driver actions and sleeps it performed. Real time is abstracted: a sleep
or timeout budget appears as its millisecond count, and the readiness
poller is indexed by poll number (poll `k` happens `10 * k` ms after the
poll loop starts).
-/

namespace BrowserBridge

/-- Modelled from the spec: the error taxonomy of `crate::error::BrowserError`
(`src/error.rs` is not part of the provided sources). §7 of the spec names the
classes: launch, config-build, network-layer (the expected-and-swallowed class
of the control channel, `BrowserError::NetworkIO` in the code), element-wait
timeout, serialization, and a pass-through driver-protocol error. -/
inductive BrowserError where
  | launchError
  | buildBrowserConfigError
  | networkLayerFailure
  | elementNotFoundTimeout
  | serialization
  | driverProtocol (code : Nat)
deriving DecidableEq, Repr

/-- `BrowserTimings`: the four named delays (launch settle, proxy-switch
settle, generic action settle, navigation wait budget), in milliseconds. -/
structure BrowserTimings where
  launch_sleep : Nat
  set_proxy_sleep : Nat
  action_sleep : Nat
  wait_page_timeout : Nat
deriving DecidableEq, Repr

/-- `impl Default for BrowserTimings`. -/
def BrowserTimings.default : BrowserTimings :=
  { launch_sleep := 280
    set_proxy_sleep := 180
    action_sleep := 80
    wait_page_timeout := 700 }

/-- `chromiumoxide::browser::HeadlessMode` (external enum; three modes). -/
inductive HeadlessMode where
  | headful
  | headlessLegacy
  | headlessNew
deriving DecidableEq, Repr

/-- A page handle. The driver assigns the identity; the session code never
inspects it. -/
structure Page where
  id : Nat
deriving DecidableEq, Repr

/-- `chromiumoxide::cdp::browser_protocol::network::CookieParam`, kept
abstract: the session code only passes the list through to the driver. -/
structure CookieParam where
  name : String
  value : String
deriving DecidableEq, Repr

/-- `MyIP`: the parsed payload of the network-identity self-check. -/
structure MyIP where
  ip : String
  country : String
  cc : String
deriving DecidableEq, Repr

/-- `PageParam`: per-open configuration bundle. -/
structure PageParam where
  proxy : Option String
  wait_for_element : Option (String × Nat)
  user_agent : Option String
  cookies : List CookieParam
  stealth_mode : Bool
  duration : Nat

/-- `impl Default for PageParam`. -/
def PageParam.default : PageParam :=
  { proxy := none
    wait_for_element := none
    user_agent := none
    cookies := []
    stealth_mode := false
    duration := 0 }

/-- `DEFAULT_ARGS`: the fixed ordered list of 23 launch flags. -/
def DEFAULT_ARGS : List String := [
  "--disable-background-networking",
  "--enable-features=NetworkService,NetworkServiceInProcess",
  "--disable-client-side-phishing-detection",
  "--disable-default-apps",
  "--disable-dev-shm-usage",
  "--disable-breakpad",
  "--disable-features=TranslateUI",
  "--disable-prompt-on-repost",
  "--no-first-run",
  "--disable-sync",
  "--force-color-profile=srgb",
  "--enable-blink-features=IdleDetection",
  "--lang=en_US",
  "--no-sandbox",
  "--disable-gpu",
  "--disable-smooth-scrolling",
  "--blink-settings=imagesEnabled=false",
  "--enable-lazy-image-loading",
  "--disable-image-animation-resync",
  "--disable-features=TranslateUI",
  "--disable-translate",
  "--disable-logging",
  "--disable-histogram-customizer"]

/-- `BrowserSessionConfig`: declarative launch parameters. -/
structure BrowserSessionConfig where
  executable : Option String
  args : List String
  headless : HeadlessMode
  sandbox : Bool
  extensions : List String
  incognito : Bool
  user_data_dir : Option String
  port : Nat
  launch_timeout : Nat
  request_timeout : Nat
  cache_enabled : Bool
  timings : BrowserTimings

/-- `impl Default for BrowserSessionConfig`. -/
def BrowserSessionConfig.default : BrowserSessionConfig :=
  { executable := none
    args := DEFAULT_ARGS
    headless := HeadlessMode.headful
    sandbox := false
    extensions := []
    incognito := false
    user_data_dir := none
    port := 0
    launch_timeout := 1500
    request_timeout := 2000
    cache_enabled := true
    timings := BrowserTimings.default }

/-- Modelled from the spec: `extension::PATH`, the path of the mandatory
built-in extension (the `extension` sibling module is not part of the
provided sources). Its concrete value never matters to the session code;
only its position in the resolved extension list does. -/
def extensionPATH : String := "<built-in extension>"

/-- The driver-ready launch specification: the record of builder calls made
by `to_config` on `chromiumoxide::BrowserConfig::builder()`. -/
structure BrowserConfig where
  disable_default_args : Bool
  headless : HeadlessMode
  args : List String
  extensions : List String
  viewport : Option Unit
  port : Nat
  launch_timeout : Nat
  request_timeout : Nat
  incognito : Bool
  no_sandbox : Bool
  cache_enabled : Bool
  user_data_dir : Option String
  executable : Option String
deriving DecidableEq, Repr

/-- `BrowserSessionConfig::to_config` (the `FromSessionConfig` impl).
`buildOk` is the oracle for the external `builder.build()` call: when the
chromiumoxide builder rejects the spec, the error is mapped to the single
opaque `buildBrowserConfigError`. -/
def to_config (buildOk : Bool) (c : BrowserSessionConfig) :
    Except BrowserError BrowserConfig :=
  let extensions := [extensionPATH] ++ c.extensions
  let spec : BrowserConfig :=
    { disable_default_args := true
      headless := c.headless
      args := c.args
      extensions := extensions
      viewport := none
      port := c.port
      launch_timeout := c.launch_timeout
      request_timeout := c.request_timeout
      incognito := c.incognito
      no_sandbox := !c.sandbox
      cache_enabled := c.cache_enabled
      user_data_dir := c.user_data_dir
      executable := c.executable }
  if buildOk then Except.ok spec else Except.error BrowserError.buildBrowserConfigError

/-! ## Readiness poller (`trait Wait` / `impl Wait for Page`)

The driver's element lookup is a point-in-time query; the poller is
indexed by poll number. `found k` tells whether the lookup issued at poll
`k` succeeds; poll `k` happens `WAIT_SLEEP * k` milliseconds after the
loop starts (the loop sleeps `WAIT_SLEEP` ms between failed polls), so a
bounding timeout of `t` ms observes exactly the polls with
`WAIT_SLEEP * k < t`. -/

/-- `Wait::WAIT_SLEEP`: the fixed poll interval, in milliseconds. -/
def WAIT_SLEEP : Nat := 10

/-- `Page::wait_for_element`: `while find_element(selector).is_err() { sleep(10ms) }; Ok(())`.
The unbounded loop, cut off after `fuel` polls starting at poll index `k`:
`none` means the loop is still running, `some r` that it returned `r`. -/
def wait_for_element (found : Nat → Bool) (k : Nat) : Nat → Option (Except BrowserError Unit)
  | 0 => none
  | fuel + 1 =>
    if found k then some (Except.ok ()) else wait_for_element found (k + 1) fuel

/-- Number of polls of the unbounded loop a timeout budget of `t` ms can
observe: the polls at instants `0, 10, 20, …` strictly before `t`. -/
def pollBudget (t : Nat) : Nat := (t + WAIT_SLEEP - 1) / WAIT_SLEEP

/-- `Page::wait_for_element_with_timeout`: `timeout(t, wait_for_element(selector)).await??`.
If the inner loop returns within the budget its result is propagated (the
inner `?`); expiry of the timeout becomes the timeout error (the outer `?`). -/
def wait_for_element_with_timeout (found : Nat → Bool) (t : Nat) : Except BrowserError Unit :=
  match wait_for_element found 0 (pollBudget t) with
  | some r => r
  | none => Except.error BrowserError.elementNotFoundTimeout

/-! ## Driver oracle, events, and the result-plus-trace monad -/

/-- An element handle returned by `find_element`. -/
structure Element where
  id : Nat
deriving DecidableEq, Repr

/-- The driver oracle: outcome of every external driver primitive. The
element lookup `find_element` is additionally indexed by the poll number
at which it is issued (the DOM evolves while the poller sleeps). -/
structure Driver where
  new_page : String → Except BrowserError Page
  set_user_agent : Page → String → Except BrowserError Unit
  set_cookies : Page → List CookieParam → Except BrowserError Unit
  enable_stealth_mode : Page → Except BrowserError Unit
  goto : Page → String → Except BrowserError Unit
  nav_wait : Page → Nat → Option (Except BrowserError Unit)
  find_element : Page → String → Nat → Except BrowserError Element
  inner_text : Element → Except BrowserError (Option String)
  close_page : Page → Except BrowserError Unit

/-- One observable step of a session operation: a driver request or a sleep. -/
inductive Event where
  | newPage (url : String)
  | setUserAgent (page : Page) (ua : String)
  | setCookies (page : Page) (cookies : List CookieParam)
  | enableStealth (page : Page)
  | goto (page : Page) (url : String)
  | navWait (page : Page) (budget : Nat)
  | sleep (ms : Nat)
  | waitForElem (page : Page) (selector : String) (t : Nat)
  | findElement (page : Page) (selector : String)
  | innerText (el : Element)
  | closePage (page : Page)
deriving DecidableEq, Repr

/-- The effect of one `async fn` body: its `Result` and the ordered trace
of driver actions and sleeps it performed (also on the error path, up to
the early return). -/
def EM (α : Type) : Type := Except BrowserError α × List Event

/-- Sequencing of two `async` steps: an error short-circuits (the Rust
`?` / early `return`), traces accumulate in order. -/
def EM.bind {α β : Type} (x : EM α) (f : α → EM β) : EM β :=
  match x.1 with
  | Except.error e => (Except.error e, x.2)
  | Except.ok a => ((f a).1, x.2 ++ (f a).2)

instance : Monad EM where
  pure a := (Except.ok a, [])
  bind := EM.bind

/-- A driver call carrying result `r`, recorded in the trace as `ev`; an
error result is propagated (the Rust `?`). -/
def emRes {α : Type} (r : Except BrowserError α) (ev : Event) : EM α := (r, [ev])

/-- `sleep(Duration::from_millis(ms)).await`. -/
def emSleep (ms : Nat) : EM Unit := (Except.ok (), [Event.sleep ms])

/-- `let _ = x.await;` — the actions happen, the result is discarded. -/
def EM.swallow {α : Type} (x : EM α) : EM Unit := (Except.ok (), x.2)

/-- Build an `EM` computation from a result and a trace. -/
def EM.mk {α : Type} (r : Except BrowserError α) (tr : List Event) : EM α := (r, tr)

/-! ## Session page and control operations (`impl BrowserSession`)

Each operation takes the driver oracle and the session's timings. -/

/-- `BrowserSession::new_page`: `self.browser.new_page("about:blank").await?`. -/
def new_page (d : Driver) : EM Page :=
  emRes (d.new_page "about:blank") (Event.newPage "about:blank")

/-- `BrowserSession::open_on_page`: issue `page.goto(url)` (`?` propagates a
failure to issue), then `let _ = timeout(wait_page_timeout, page.wait_for_navigation())`
— the wait's outcome, expiry included, is discarded. -/
def open_on_page (d : Driver) (tm : BrowserTimings) (url : String) (page : Page) : EM Unit :=
  match d.goto page url with
  | Except.error e => EM.mk (Except.error e) [Event.goto page url]
  | Except.ok _ =>
    let _ := d.nav_wait page tm.wait_page_timeout
    EM.mk (Except.ok ()) [Event.goto page url, Event.navWait page tm.wait_page_timeout]

/-- `BrowserSession::open`: `new_page` then `open_on_page`, returning the page. -/
def openUrl (d : Driver) (tm : BrowserTimings) (url : String) : EM Page := do
  let page ← new_page d
  open_on_page d tm url page
  pure page

/-- `BrowserSession::set_proxy`: navigate to `chrome://set_proxy/<proxy>`;
exactly the network-layer failure class is swallowed, any other error is
returned; then sleep `set_proxy_sleep`. -/
def set_proxy (d : Driver) (tm : BrowserTimings) (proxy : String) : EM Unit :=
  let url := "chrome://set_proxy/" ++ proxy
  match d.new_page url with
  | Except.error e =>
    match e with
    | BrowserError.networkLayerFailure =>
      EM.mk (Except.ok ()) [Event.newPage url, Event.sleep tm.set_proxy_sleep]
    | _ => EM.mk (Except.error e) [Event.newPage url]
  | Except.ok _ =>
    EM.mk (Except.ok ()) [Event.newPage url, Event.sleep tm.set_proxy_sleep]

/-- `BrowserSession::reset_proxy`: same pattern against `chrome://reset_proxy`,
with `action_sleep` as the settle duration. -/
def reset_proxy (d : Driver) (tm : BrowserTimings) : EM Unit :=
  match d.new_page "chrome://reset_proxy" with
  | Except.error e =>
    match e with
    | BrowserError.networkLayerFailure =>
      EM.mk (Except.ok ()) [Event.newPage "chrome://reset_proxy", Event.sleep tm.action_sleep]
    | _ => EM.mk (Except.error e) [Event.newPage "chrome://reset_proxy"]
  | Except.ok _ =>
    EM.mk (Except.ok ()) [Event.newPage "chrome://reset_proxy", Event.sleep tm.action_sleep]

/-- `BrowserSession::close_tabs`: same pattern against `chrome://close_tabs`. -/
def close_tabs (d : Driver) (tm : BrowserTimings) : EM Unit :=
  match d.new_page "chrome://close_tabs" with
  | Except.error e =>
    match e with
    | BrowserError.networkLayerFailure =>
      EM.mk (Except.ok ()) [Event.newPage "chrome://close_tabs", Event.sleep tm.action_sleep]
    | _ => EM.mk (Except.error e) [Event.newPage "chrome://close_tabs"]
  | Except.ok _ =>
    EM.mk (Except.ok ()) [Event.newPage "chrome://close_tabs", Event.sleep tm.action_sleep]

/-- `BrowserSession::clear_data`: same pattern against `chrome://clear_data`. -/
def clear_data (d : Driver) (tm : BrowserTimings) : EM Unit :=
  match d.new_page "chrome://clear_data" with
  | Except.error e =>
    match e with
    | BrowserError.networkLayerFailure =>
      EM.mk (Except.ok ()) [Event.newPage "chrome://clear_data", Event.sleep tm.action_sleep]
    | _ => EM.mk (Except.error e) [Event.newPage "chrome://clear_data"]
  | Except.ok _ =>
    EM.mk (Except.ok ()) [Event.newPage "chrome://clear_data", Event.sleep tm.action_sleep]

/-- `Page::wait_for_element_with_timeout` as invoked by the session on a
given page and selector, against the driver's poll-indexed lookup. -/
def page_wait_for_element_with_timeout (d : Driver) (page : Page) (selector : String)
    (t : Nat) : EM Unit :=
  emRes
    (wait_for_element_with_timeout
      (fun k => (d.find_element page selector k).toBool) t)
    (Event.waitForElem page selector t)

/-- `BrowserSession::open_with_param`: proxy switch (if set), blank page,
user agent (if set), cookies (if non-empty), stealth (if requested; result
discarded), navigation, settle sleep, selector wait (if given; result
discarded); returns the page. -/
def open_with_param (d : Driver) (tm : BrowserTimings) (url : String) (param : PageParam) :
    EM Page := do
  match param.proxy with
  | some proxy => set_proxy d tm proxy
  | none => pure ()
  let page ← new_page d
  match param.user_agent with
  | some ua => emRes (d.set_user_agent page ua) (Event.setUserAgent page ua)
  | none => pure ()
  if !param.cookies.isEmpty then
    emRes (d.set_cookies page param.cookies) (Event.setCookies page param.cookies)
  else
    pure ()
  if param.stealth_mode then
    EM.swallow (emRes (d.enable_stealth_mode page) (Event.enableStealth page))
  else
    pure ()
  open_on_page d tm url page
  emSleep param.duration
  match param.wait_for_element with
  | some (selector, t) =>
    EM.swallow (page_wait_for_element_with_timeout d page selector t)
  | none => pure ()
  pure page

/-! ## JSON deserialization of the MyIP shape

Modelled from the spec: `serde_json::from_str::<MyIP>` (an external crate)
applied to the MyIP JSON shape of §6 — a single object whose members are
string-valued (`{ "ip": string, "country": string, "cc": string }`,
unknown string-valued members ignored, duplicate known members rejected,
nothing but whitespace allowed after the closing brace). -/

def isWs (c : Char) : Bool := c = ' ' || c = '\t' || c = '\n' || c = '\r'

def skipWs : List Char → List Char
  | [] => []
  | c :: cs => if isWs c then skipWs cs else c :: cs

def lbrace : Char := Char.ofNat 123

def rbrace : Char := Char.ofNat 125

def hexVal (c : Char) : Option Nat :=
  if '0' ≤ c ∧ c ≤ '9' then some (c.toNat - '0'.toNat)
  else if 'a' ≤ c ∧ c ≤ 'f' then some (c.toNat - 'a'.toNat + 10)
  else if 'A' ≤ c ∧ c ≤ 'F' then some (c.toNat - 'A'.toNat + 10)
  else none

/-- Parse the remainder of a JSON string (the opening quote already
consumed): returns the decoded characters and the input after the closing
quote. Raw control characters are rejected; the standard escapes and
`\u` with four hex digits are decoded. -/
def parseStringChars : List Char → Option (List Char × List Char)
  | [] => none
  | c :: cs =>
    if c = '"' then some ([], cs)
    else if c = '\\' then
      match cs with
      | [] => none
      | e :: cs' =>
        if e = 'u' then
          match cs' with
          | h1 :: h2 :: h3 :: h4 :: cs'' =>
            match hexVal h1, hexVal h2, hexVal h3, hexVal h4 with
            | some v1, some v2, some v3, some v4 =>
              (parseStringChars cs'').map
                (fun p => (Char.ofNat (((v1 * 16 + v2) * 16 + v3) * 16 + v4) :: p.1, p.2))
            | _, _, _, _ => none
          | _ => none
        else
          match
            (if e = '"' then some '"'
             else if e = '\\' then some '\\'
             else if e = '/' then some '/'
             else if e = 'b' then some (Char.ofNat 8)
             else if e = 'f' then some (Char.ofNat 12)
             else if e = 'n' then some '\n'
             else if e = 'r' then some '\r'
             else if e = 't' then some '\t'
             else none) with
          | some dec => (parseStringChars cs').map (fun p => (dec :: p.1, p.2))
          | none => none
    else if c.toNat < 32 then none
    else (parseStringChars cs).map (fun p => (c :: p.1, p.2))

/-- Parse the members of a string-valued JSON object, positioned right
after the opening brace or after a separating comma; returns the member
list and the input after the closing brace. `fuel` bounds the member
count (one unit per member suffices). -/
def parseMembersAux : Nat → List Char → List (String × String) →
    Option (List (String × String) × List Char)
  | 0, _, _ => none
  | fuel + 1, cs, acc =>
    match skipWs cs with
    | [] => none
    | c :: cs' =>
      if c = '"' then
        match parseStringChars cs' with
        | none => none
        | some (key, rest) =>
          match skipWs rest with
          | ':' :: rest' =>
            match skipWs rest' with
            | [] => none
            | q :: rest'' =>
              if q = '"' then
                match parseStringChars rest'' with
                | none => none
                | some (val, rest3) =>
                  match skipWs rest3 with
                  | c2 :: rest4 =>
                    if c2 = ',' then
                      parseMembersAux fuel rest4 (acc ++ [(String.mk key, String.mk val)])
                    else if c2 = rbrace then
                      some (acc ++ [(String.mk key, String.mk val)], rest4)
                    else none
                  | [] => none
              else none
          | _ => none
      else none

/-- Parse a whole input as a string-valued JSON object followed by nothing
but whitespace. -/
def parseStrObject (s : String) : Option (List (String × String)) :=
  match skipWs s.toList with
  | [] => none
  | c :: cs' =>
    if c = lbrace then
      match skipWs cs' with
      | [] => none
      | c2 :: rest =>
        if c2 = rbrace then
          if skipWs rest = [] then some [] else none
        else
          match parseMembersAux (cs'.length + 1) cs' [] with
          | some (pairs, rest2) => if skipWs rest2 = [] then some pairs else none
          | none => none
    else none

/-- The value of the unique member named `key`: `none` when absent or
duplicated (serde rejects a duplicate known field). -/
def getUnique (pairs : List (String × String)) (key : String) : Option String :=
  match pairs.filterMap (fun p => if p.1 = key then some p.2 else none) with
  | [v] => some v
  | _ => none

/-- `serde_json::from_str::<MyIP>` on the MyIP shape. -/
def myip_from_str (s : String) : Option MyIP :=
  match parseStrObject s with
  | none => none
  | some pairs =>
    match getUnique pairs "ip", getUnique pairs "country", getUnique pairs "cc" with
    | some ip, some country, some cc => some { ip := ip, country := country, cc := cc }
    | _, _, _ => none

/-- `BrowserSession::myip`: open the IP-lookup endpoint, look up `body`,
read its inner text, turn an absent body into the serialization error (the
`?` after `.map` — note this early return happens *before* the page
close), parse the text (a parse failure becomes the serialization error
carried past the close), attempt the close discarding its result, and
return the parse outcome. -/
def myip (d : Driver) (tm : BrowserTimings) : EM MyIP := do
  let page ← openUrl d tm "https://api.myip.com/"
  let el ← emRes (d.find_element page "body" 0) (Event.findElement page "body")
  let txt ← emRes (d.inner_text el) (Event.innerText el)
  let res ←
    (match txt with
     | none => EM.mk (Except.error BrowserError.serialization) []
     | some s =>
       pure
        (match myip_from_str s with
         | some v => Except.ok v
         | none => Except.error BrowserError.serialization))
  EM.swallow (emRes (d.close_page page) (Event.closePage page))
  EM.mk res []

/-! ## Session structure and `set_timings` -/

/-- `BrowserSession`: one driver-process handle, one background drain-task
handle, and the mutable timing policy. The handle types are parameters:
the session code never inspects them. -/
structure BrowserSession (B H : Type) where
  browser : B
  handle : H
  timings : BrowserTimings

/-- `BrowserSession::set_timings`: `self.timings = timings;`. -/
def set_timings {B H : Type} (s : BrowserSession B H) (timings : BrowserTimings) :
    BrowserSession B H :=
  { s with timings := timings }

/-! ## `BrowserSession::close`

The close path touches only the process handle and the drain task, so it
has its own oracle: whether graceful close succeeds, whether the bounded
wait succeeds, and the outcome of each successive non-blocking
`try_wait` check. The model is the ordered trace of steps taken; the Rust
function returns `()` on every path. -/

/-- Outcomes of the process-lifecycle primitives consumed by `close`. -/
structure CloseDriver where
  close_ok : Bool
  wait_ok : Bool
  try_wait_ok : Nat → Bool

/-- One step of `close`. -/
inductive CloseEvent where
  | closeBrowser
  | kill
  | waitExit
  | tryWait (attempt : Nat)
  | abortHandle
deriving DecidableEq, Repr

/-- The retry loop of `close`:
`while self.browser.try_wait().is_err() && attempts < 4 { attempts += 1 }`.
`try_wait` is called on every condition evaluation (also the final one at
`attempts = 4`), before the counter bound is tested. -/
def close_try_loop (d : CloseDriver) (attempts : Nat) : List CloseEvent :=
  if d.try_wait_ok attempts then [CloseEvent.tryWait attempts]
  else if h : attempts < 4 then
    CloseEvent.tryWait attempts :: close_try_loop d (attempts + 1)
  else [CloseEvent.tryWait attempts]
termination_by 4 - attempts

/-- `BrowserSession::close`: graceful close, `kill` only if it failed;
bounded `wait`, the `try_wait` retry loop only if it failed; finally
`handle.abort()`. -/
def close (d : CloseDriver) : List CloseEvent :=
  (if d.close_ok then [CloseEvent.closeBrowser]
   else [CloseEvent.closeBrowser, CloseEvent.kill]) ++
  (if d.wait_ok then [CloseEvent.waitExit]
   else CloseEvent.waitExit :: close_try_loop d 0) ++
  [CloseEvent.abortHandle]

/-! ## Identity rotation -/

/-- `USER_AGENT_LIST`: the fixed table of user-agent strings. -/
def USER_AGENT_LIST : List String := [
  "Mozilla/5.0 (Windows NT 10.0; Win64; x64) AppleWebKit/537.36 (KHTML, like Gecko) Chrome/131.0.0.0 Safari/537.36",
  "Mozilla/5.0 (Macintosh; Intel Mac OS X 10_15_7) AppleWebKit/537.36 (KHTML, like Gecko) Chrome/131.0.0.0 Safari/537.36",
  "Mozilla/5.0 (X11; Linux x86_64) AppleWebKit/537.36 (KHTML, like Gecko) Chrome/131.0.0.0 Safari/537.36",
  "Mozilla/5.0 (Windows NT 10.0; Win64; x64) AppleWebKit/537.36 (KHTML, like Gecko) Edge/117.0.2045.60 Safari/537.36",
  "Mozilla/5.0 (Windows NT 10.0; WOW64; rv:102.0) Gecko/20100101 Firefox/102.0",
  "Mozilla/5.0 (Macintosh; Intel Mac OS X 12.6; rv:116.0) Gecko/20100101 Firefox/116.0",
  "Mozilla/5.0 (X11; Ubuntu; Linux x86_64; rv:118.0) Gecko/20100101 Firefox/118.0",
  "Mozilla/5.0 (Macintosh; Intel Mac OS X 11_6) AppleWebKit/605.1.15 (KHTML, like Gecko) Version/15.0 Safari/605.1.15",
  "Mozilla/5.0 (iPhone; CPU iPhone OS 16_1 like Mac OS X) AppleWebKit/605.1.15 (KHTML, like Gecko) Version/16.0 Mobile/15E148 Safari/604.1",
  "Mozilla/5.0 (iPad; CPU OS 16_1 like Mac OS X) AppleWebKit/605.1.15 (KHTML, like Gecko) Version/16.0 Mobile/15E148 Safari/604.1",
  "Mozilla/5.0 (Linux; Android 13; Pixel 7) AppleWebKit/537.36 (KHTML, like Gecko) Chrome/131.0.0.0 Mobile Safari/537.36",
  "Mozilla/5.0 (Linux; Android 12; SM-A515F) AppleWebKit/537.36 (KHTML, like Gecko) Chrome/131.0.0.0 Mobile Safari/537.36",
  "Mozilla/5.0 (Linux; Android 13; SM-G991B) AppleWebKit/537.36 (KHTML, like Gecko) Chrome/131.0.0.0 Mobile Safari/537.36",
  "Mozilla/5.0 (Windows NT 11.0; Win64; x64) AppleWebKit/537.36 (KHTML, like Gecko) Chrome/135.0.0.0 Safari/537.36",
  "Mozilla/5.0 (Macintosh; Intel Mac OS X 13_0_1) AppleWebKit/537.36 (KHTML, like Gecko) Chrome/134.0.0.0 Safari/537.36",
  "Mozilla/5.0 (Linux; U; Android 12; en-US; SM-T870 Build/SP1A.210812.016) AppleWebKit/537.36 (KHTML, like Gecko) Version/4.0 Chrome/100.0.4896.127 Safari/537.36",
  "Mozilla/5.0 (Linux; Android 11; Mi 10T Pro Build/RKQ1.200826.002) AppleWebKit/537.36 (KHTML, like Gecko) Chrome/101.0.4951.41 Mobile Safari/537.36",
  "Mozilla/5.0 (Windows NT 10.0; rv:110.0) Gecko/20100101 Firefox/110.0",
  "Mozilla/5.0 (X11; Linux x86_64; rv:91.0) Gecko/20100101 Firefox/91.0",
  "Mozilla/5.0 (Macintosh; Intel Mac OS X 10_14_6) AppleWebKit/605.1.15 (KHTML, like Gecko) Version/13.1.2 Safari/605.1.15"]

/-- `random_user_agent`: `USER_AGENT_LIST[rng.gen_range(0..USER_AGENT_LIST.len())]`.
The `rand` crate is external; `gen_range(0..len)` draws a uniform index of
the table, and that draw is the function's input here. Stateless: the
output depends on nothing but the single draw. -/
def random_user_agent (index : Fin USER_AGENT_LIST.length) : String :=
  USER_AGENT_LIST.get index

/-! ## Specification-side definitions and concrete fixtures -/

/-- Transcribed from the spec's words (§4.3, `open_with_param`): the exact
step order (1)–(8) — proxy switch (which per §4.4 is the pseudo-URL
navigation followed by the proxy-switch settle), blank page, user agent,
cookies, stealth, navigation with its bounded wait, settle sleep, selector
wait. Compared against the trace the embedded code produces. -/
def specTrace_open_with_param (tm : BrowserTimings) (url : String) (param : PageParam)
    (page : Page) : List Event :=
  (match param.proxy with
   | some proxy =>
     [Event.newPage ("chrome://set_proxy/" ++ proxy), Event.sleep tm.set_proxy_sleep]
   | none => []) ++
  [Event.newPage "about:blank"] ++
  (match param.user_agent with
   | some ua => [Event.setUserAgent page ua]
   | none => []) ++
  (if param.cookies.isEmpty then [] else [Event.setCookies page param.cookies]) ++
  (if param.stealth_mode then [Event.enableStealth page] else []) ++
  [Event.goto page url, Event.navWait page tm.wait_page_timeout] ++
  [Event.sleep param.duration] ++
  (match param.wait_for_element with
   | some (selector, t) => [Event.waitForElem page selector t]
   | none => [])

/-- Does a `close` step record a `try_wait` call? -/
def isTryWait : CloseEvent → Bool
  | CloseEvent.tryWait _ => true
  | _ => false

/-- Default timings, used by the concrete checks. -/
def tm0 : BrowserTimings := BrowserTimings.default

def pageW : Page := { id := 1 }

def elW : Element := { id := 2 }

/-- The body the spec uses as its concrete identity-check example. -/
def goodBody : String := "\x7b\"ip\":\"1.2.3.4\",\"country\":\"Testland\",\"cc\":\"TS\"\x7d"

/-- A driver on which every primitive succeeds, the navigation wait always
expires, and the body text is the spec's example payload. -/
def drvAllOk : Driver :=
  { new_page := fun _ => Except.ok pageW
    set_user_agent := fun _ _ => Except.ok ()
    set_cookies := fun _ _ => Except.ok ()
    enable_stealth_mode := fun _ => Except.ok ()
    goto := fun _ _ => Except.ok ()
    nav_wait := fun _ _ => none
    find_element := fun _ _ _ => Except.ok elW
    inner_text := fun _ => Except.ok (some goodBody)
    close_page := fun _ => Except.ok () }

/-- A driver whose pseudo-URL navigations fail with the expected
network-layer class. -/
def drvNet : Driver :=
  { drvAllOk with new_page := fun _ => Except.error BrowserError.networkLayerFailure }

/-- A driver whose page opens fail with a genuine protocol error. -/
def drvCrash : Driver :=
  { drvAllOk with new_page := fun _ => Except.error (BrowserError.driverProtocol 7) }

/-- A driver whose body lookup yields no inner text. -/
def drvNoBody : Driver :=
  { drvAllOk with inner_text := fun _ => Except.ok none }

/-- A driver whose body text does not parse as the MyIP shape. -/
def drvBadBody : Driver :=
  { drvAllOk with inner_text := fun _ => Except.ok (some "oops") }

def cdOk : CloseDriver :=
  { close_ok := true, wait_ok := true, try_wait_ok := fun _ => true }

/-- The launch spec `to_config` resolves the default configuration to. -/
def cfg0 : BrowserConfig :=
  { disable_default_args := true
    headless := HeadlessMode.headful
    args := DEFAULT_ARGS
    extensions := [extensionPATH]
    viewport := none
    port := 0
    launch_timeout := 1500
    request_timeout := 2000
    incognito := false
    no_sandbox := true
    cache_enabled := true
    user_data_dir := none
    executable := none }

/-- A `PageParam` with every optional step populated. -/
def paramFull : PageParam :=
  { proxy := some "1.2.3.4:8080"
    wait_for_element := some ("div", 100)
    user_agent := some "UA"
    cookies := [{ name := "k", value := "v" }]
    stealth_mode := true
    duration := 50 }

/-! ## Basic lemmas about the effect monad -/

theorem EM.mk_fst {α : Type} (r : Except BrowserError α) (tr : List Event) :
    (EM.mk r tr).1 = r := rfl

theorem EM.mk_snd {α : Type} (r : Except BrowserError α) (tr : List Event) :
    (EM.mk r tr).2 = tr := rfl

theorem EM.bind_eq {α β : Type} (x : EM α) (f : α → EM β) : x >>= f = EM.bind x f := rfl

theorem EM.bind_mk_ok {α β : Type} (a : α) (tr : List Event) (f : α → EM β) :
    EM.bind (EM.mk (Except.ok a) tr) f = EM.mk (f a).1 (tr ++ (f a).2) := rfl

theorem EM.bind_mk_error {α β : Type} (e : BrowserError) (tr : List Event) (f : α → EM β) :
    EM.bind (EM.mk (Except.error e) tr) f = EM.mk (Except.error e) tr := rfl

theorem EM.pure_def {α : Type} (a : α) : (pure a : EM α) = EM.mk (Except.ok a) [] := rfl

/-- A successful `set_proxy` performed exactly the pseudo-URL navigation
followed by the proxy-switch settle sleep. -/
theorem set_proxy_ok_trace (d : Driver) (tm : BrowserTimings) (proxy : String)
    (h : (set_proxy d tm proxy).1 = Except.ok ()) :
    (set_proxy d tm proxy).2 =
      [Event.newPage ("chrome://set_proxy/" ++ proxy), Event.sleep tm.set_proxy_sleep] := by
  unfold set_proxy at h ⊢
  cases hnp : d.new_page ("chrome://set_proxy/" ++ proxy) with
  | ok p => simp [hnp, EM.mk]
  | error e =>
    cases e <;> simp [hnp, EM.mk] at h ⊢

/-! ## Claim theorems -/

/-- C9: `set_timings` replaces only the `timings` field of the session;
the browser handle and the background drain-task handle are unchanged. -/
theorem set_timings_only_replaces_timings {B H : Type} (s : BrowserSession B H)
    (t : BrowserTimings) :
    (set_timings s t).timings = t ∧ (set_timings s t).browser = s.browser ∧
    (set_timings s t).handle = s.handle :=
  ⟨rfl, rfl, rfl⟩

/-- C4: for every session configuration, the resolved extension list is
the mandatory built-in extension followed by the caller-supplied
extensions in their original order; in particular the mandatory extension
is always the first element. -/
theorem resolved_extensions_mandatory_first (buildOk : Bool) (c : BrowserSessionConfig)
    (cfg : BrowserConfig) (h : to_config buildOk c = Except.ok cfg) :
    cfg.extensions = extensionPATH :: c.extensions ∧
    cfg.extensions.head? = some extensionPATH := by
  cases buildOk with
  | false => simp [to_config] at h
  | true =>
    simp only [to_config, if_true, Except.ok.injEq] at h
    subst h
    exact ⟨rfl, rfl⟩

/-- C4 check: the resolution at the default configuration (empty caller
extension list) yields `cfg0`, whose extension list starts with the
mandatory extension. -/
theorem resolved_extensions_mandatory_first_check :
    cfg0.extensions = extensionPATH :: BrowserSessionConfig.default.extensions ∧
    cfg0.extensions.head? = some extensionPATH :=
  resolved_extensions_mandatory_first true BrowserSessionConfig.default cfg0 rfl

/-- C3: `open_on_page` fails exactly when issuing the navigation fails;
when the navigation is issued, the call succeeds whatever becomes of the
bounded navigation-completion wait — in particular when the wait budget
expires (`nav_wait … = none`). -/
theorem open_on_page_error_policy (d : Driver) (tm : BrowserTimings) (url : String)
    (page : Page) :
    (∀ e, (open_on_page d tm url page).1 = Except.error e ↔
        d.goto page url = Except.error e) ∧
    (d.goto page url = Except.ok () → (open_on_page d tm url page).1 = Except.ok ()) ∧
    (d.nav_wait page tm.wait_page_timeout = none → d.goto page url = Except.ok () →
      (open_on_page d tm url page).1 = Except.ok ()) := by
  cases h : d.goto page url with
  | ok v => cases v; simp [open_on_page, h, EM.mk]
  | error e => simp [open_on_page, h, EM.mk]

/-- C3 check: on a driver whose navigation-completion wait always expires,
an issued navigation still succeeds. -/
theorem open_on_page_error_policy_check :
    (open_on_page drvAllOk tm0 "https://example.com" pageW).1 = Except.ok () :=
  (open_on_page_error_policy drvAllOk tm0 "https://example.com" pageW).2.2 rfl rfl

/-- C2: each control-channel operation swallows exactly the network-layer
failure of its pseudo-URL navigation (returning success and then sleeping
its settle duration — `set_proxy_sleep` for `set_proxy`, `action_sleep`
for the rest), and propagates any other error unchanged, without
sleeping. -/
theorem control_channel_error_policy (d : Driver) (tm : BrowserTimings) :
    (∀ proxy : String,
      (d.new_page ("chrome://set_proxy/" ++ proxy) =
          Except.error BrowserError.networkLayerFailure →
        set_proxy d tm proxy =
          EM.mk (Except.ok ()) [Event.newPage ("chrome://set_proxy/" ++ proxy),
            Event.sleep tm.set_proxy_sleep]) ∧
      (∀ e, d.new_page ("chrome://set_proxy/" ++ proxy) = Except.error e →
        e ≠ BrowserError.networkLayerFailure →
        set_proxy d tm proxy =
          EM.mk (Except.error e) [Event.newPage ("chrome://set_proxy/" ++ proxy)])) ∧
    ((d.new_page "chrome://reset_proxy" = Except.error BrowserError.networkLayerFailure →
        reset_proxy d tm =
          EM.mk (Except.ok ()) [Event.newPage "chrome://reset_proxy",
            Event.sleep tm.action_sleep]) ∧
      (∀ e, d.new_page "chrome://reset_proxy" = Except.error e →
        e ≠ BrowserError.networkLayerFailure →
        reset_proxy d tm = EM.mk (Except.error e) [Event.newPage "chrome://reset_proxy"])) ∧
    ((d.new_page "chrome://close_tabs" = Except.error BrowserError.networkLayerFailure →
        close_tabs d tm =
          EM.mk (Except.ok ()) [Event.newPage "chrome://close_tabs",
            Event.sleep tm.action_sleep]) ∧
      (∀ e, d.new_page "chrome://close_tabs" = Except.error e →
        e ≠ BrowserError.networkLayerFailure →
        close_tabs d tm = EM.mk (Except.error e) [Event.newPage "chrome://close_tabs"])) ∧
    ((d.new_page "chrome://clear_data" = Except.error BrowserError.networkLayerFailure →
        clear_data d tm =
          EM.mk (Except.ok ()) [Event.newPage "chrome://clear_data",
            Event.sleep tm.action_sleep]) ∧
      (∀ e, d.new_page "chrome://clear_data" = Except.error e →
        e ≠ BrowserError.networkLayerFailure →
        clear_data d tm = EM.mk (Except.error e) [Event.newPage "chrome://clear_data"])) := by
  refine ⟨fun proxy => ⟨fun h => ?_, fun e h hne => ?_⟩,
    ⟨fun h => ?_, fun e h hne => ?_⟩, ⟨fun h => ?_, fun e h hne => ?_⟩,
    ⟨fun h => ?_, fun e h hne => ?_⟩⟩
  · simp only [set_proxy, h]
  · simp only [set_proxy, h]
  · simp only [reset_proxy, h]
  · simp only [reset_proxy, h]
  · simp only [close_tabs, h]
  · simp only [close_tabs, h]
  · simp only [clear_data, h]
  · simp only [clear_data, h]

/-- C2 check: the policy at a driver reporting the network-layer failure
(all four operations swallow it and sleep) and at a driver reporting a
protocol error (all four propagate it unchanged, with no sleep). -/
theorem control_channel_error_policy_check :
    set_proxy drvNet tm0 "p" =
      EM.mk (Except.ok ()) [Event.newPage ("chrome://set_proxy/" ++ "p"),
        Event.sleep tm0.set_proxy_sleep] ∧
    reset_proxy drvNet tm0 =
      EM.mk (Except.ok ()) [Event.newPage "chrome://reset_proxy",
        Event.sleep tm0.action_sleep] ∧
    close_tabs drvNet tm0 =
      EM.mk (Except.ok ()) [Event.newPage "chrome://close_tabs",
        Event.sleep tm0.action_sleep] ∧
    clear_data drvNet tm0 =
      EM.mk (Except.ok ()) [Event.newPage "chrome://clear_data",
        Event.sleep tm0.action_sleep] ∧
    set_proxy drvCrash tm0 "p" =
      EM.mk (Except.error (BrowserError.driverProtocol 7))
        [Event.newPage ("chrome://set_proxy/" ++ "p")] ∧
    reset_proxy drvCrash tm0 =
      EM.mk (Except.error (BrowserError.driverProtocol 7))
        [Event.newPage "chrome://reset_proxy"] ∧
    close_tabs drvCrash tm0 =
      EM.mk (Except.error (BrowserError.driverProtocol 7))
        [Event.newPage "chrome://close_tabs"] ∧
    clear_data drvCrash tm0 =
      EM.mk (Except.error (BrowserError.driverProtocol 7))
        [Event.newPage "chrome://clear_data"] :=
  ⟨((control_channel_error_policy drvNet tm0).1 "p").1 rfl,
   (control_channel_error_policy drvNet tm0).2.1.1 rfl,
   (control_channel_error_policy drvNet tm0).2.2.1.1 rfl,
   (control_channel_error_policy drvNet tm0).2.2.2.1 rfl,
   ((control_channel_error_policy drvCrash tm0).1 "p").2 (BrowserError.driverProtocol 7)
     rfl (by decide),
   (control_channel_error_policy drvCrash tm0).2.1.2 (BrowserError.driverProtocol 7)
     rfl (by decide),
   (control_channel_error_policy drvCrash tm0).2.2.1.2 (BrowserError.driverProtocol 7)
     rfl (by decide),
   (control_channel_error_policy drvCrash tm0).2.2.2.2 (BrowserError.driverProtocol 7)
     rfl (by decide)⟩

/-- The only value the unbounded poll loop can return is `Ok(())`: the
loop body treats a failed lookup as "not yet found" and retries. -/
theorem wait_for_element_ok_of_some (found : Nat → Bool) :
    ∀ (fuel k : Nat) (r : Except BrowserError Unit),
      wait_for_element found k fuel = some r → r = Except.ok () := by
  intro fuel
  induction fuel with
  | zero => intro k r h; simp [wait_for_element] at h
  | succ n ih =>
    intro k r h
    simp only [wait_for_element] at h
    by_cases hf : found k
    · simp [hf] at h
      exact h.symm
    · simp [hf] at h
      exact ih (k + 1) r h

/-- If some observable poll finds the element, the loop returns `Ok(())`. -/
theorem wait_for_element_some_of_found (found : Nat → Bool) :
    ∀ (fuel k : Nat), (∃ j, j < fuel ∧ found (k + j) = true) →
      wait_for_element found k fuel = some (Except.ok ()) := by
  intro fuel
  induction fuel with
  | zero =>
    intro k h
    obtain ⟨j, hj, _⟩ := h
    omega
  | succ n ih =>
    intro k h
    obtain ⟨j, hj, hf⟩ := h
    simp only [wait_for_element]
    by_cases h0 : found k
    · simp [h0]
    · simp only [h0, if_false, Bool.false_eq_true]
      apply ih
      cases j with
      | zero => simp at hf; exact absurd hf h0
      | succ j =>
        refine ⟨j, by omega, ?_⟩
        have : k + 1 + j = k + (j + 1) := by omega
        rw [this]
        exact hf

/-- If no observable poll finds the element, the loop is still running
when the budget runs out. -/
theorem wait_for_element_none_of_not_found (found : Nat → Bool) :
    ∀ (fuel k : Nat), (∀ j, j < fuel → found (k + j) = false) →
      wait_for_element found k fuel = none := by
  intro fuel
  induction fuel with
  | zero => intro k _; rfl
  | succ n ih =>
    intro k h
    simp only [wait_for_element]
    have h0 : found k = false := by
      have := h 0 (by omega)
      simpa using this
    simp only [h0, Bool.false_eq_true, if_false]
    apply ih
    intro j hj
    have : k + 1 + j = k + (j + 1) := by omega
    rw [this]
    exact h (j + 1) (by omega)

/-- Poll `k` fits in the budget `t` exactly when `WAIT_SLEEP * k < t`. -/
theorem lt_pollBudget_iff (t k : Nat) : k < pollBudget t ↔ WAIT_SLEEP * k < t := by
  unfold pollBudget WAIT_SLEEP
  omega

/-- C10: the unbounded poll `wait_for_element` returns `Ok(())` whenever it
returns at all — a failing element lookup is retried, never surfaced — so
the bounded `wait_for_element_with_timeout` can only return success or the
timeout error. -/
theorem wait_poller_only_timeout_error :
    (∀ (found : Nat → Bool) (fuel k : Nat) (r : Except BrowserError Unit),
      wait_for_element found k fuel = some r → r = Except.ok ()) ∧
    (∀ (found : Nat → Bool) (t : Nat),
      wait_for_element_with_timeout found t = Except.ok () ∨
      wait_for_element_with_timeout found t =
        Except.error BrowserError.elementNotFoundTimeout) := by
  constructor
  · exact fun found fuel k r h => wait_for_element_ok_of_some found fuel k r h
  · intro found t
    unfold wait_for_element_with_timeout
    cases h : wait_for_element found 0 (pollBudget t) with
    | none => exact Or.inr rfl
    | some r =>
      exact Or.inl (by rw [wait_for_element_ok_of_some found (pollBudget t) 0 r h])

/-- C10 check: a loop that returns on its first poll returned `Ok(())`,
and a bounded wait on a never-found selector lands in the stated
two-outcome set. -/
theorem wait_poller_only_timeout_error_check :
    ((Except.ok () : Except BrowserError Unit) = Except.ok ()) ∧
    (wait_for_element_with_timeout (fun _ => false) 30 = Except.ok () ∨
      wait_for_element_with_timeout (fun _ => false) 30 =
        Except.error BrowserError.elementNotFoundTimeout) :=
  ⟨wait_poller_only_timeout_error.1 (fun _ => true) 1 0 (Except.ok ()) rfl,
   wait_poller_only_timeout_error.2 (fun _ => false) 30⟩

/-- C6: `wait_for_element_with_timeout(selector, t)` polls at the fixed
10ms interval (poll `k` at instant `WAIT_SLEEP * k`) and returns success
exactly when the element appears at a poll within `t`, and the timeout
error when it does not — for every `t`, including `t = 0`. -/
theorem wait_for_element_with_timeout_correct (found : Nat → Bool) (t : Nat) :
    ((∃ k, WAIT_SLEEP * k < t ∧ found k = true) →
      wait_for_element_with_timeout found t = Except.ok ()) ∧
    ((∀ k, WAIT_SLEEP * k < t → found k = false) →
      wait_for_element_with_timeout found t =
        Except.error BrowserError.elementNotFoundTimeout) := by
  constructor
  · rintro ⟨k, hk, hf⟩
    unfold wait_for_element_with_timeout
    rw [wait_for_element_some_of_found found (pollBudget t) 0
      ⟨k, (lt_pollBudget_iff t k).2 hk, by simpa using hf⟩]
  · intro h
    unfold wait_for_element_with_timeout
    rw [wait_for_element_none_of_not_found found (pollBudget t) 0
      (fun j hj => by simpa using h j ((lt_pollBudget_iff t j).1 hj))]

/-- Every step of the `try_wait` retry loop is a `try_wait` call. -/
theorem close_try_loop_mem (d : CloseDriver) :
    ∀ (n a : Nat), 4 - a ≤ n → ∀ e ∈ close_try_loop d a, ∃ k, e = CloseEvent.tryWait k := by
  intro n
  induction n with
  | zero =>
    intro a ha e he
    unfold close_try_loop at he
    by_cases h1 : d.try_wait_ok a
    · simp [h1] at he
      exact ⟨a, he⟩
    · simp [h1] at he
      rw [if_neg (by omega : ¬ a < 4)] at he
      simp at he
      exact ⟨a, he⟩
  | succ n ih =>
    intro a ha e he
    unfold close_try_loop at he
    by_cases h1 : d.try_wait_ok a
    · simp [h1] at he
      exact ⟨a, he⟩
    · simp [h1] at he
      by_cases h2 : a < 4
      · rw [if_pos h2] at he
        rcases List.mem_cons.1 he with he | he
        · exact ⟨a, he⟩
        · exact ih (a + 1) (by omega) e he
      · rw [if_neg h2] at he
        simp at he
        exact ⟨a, he⟩

/-- The `try_wait` retry loop performs at most `n + 1` checks when at most
`n` retries remain. -/
theorem close_try_loop_length (d : CloseDriver) :
    ∀ (n a : Nat), 4 - a ≤ n → (close_try_loop d a).length ≤ n + 1 := by
  intro n
  induction n with
  | zero =>
    intro a ha
    unfold close_try_loop
    by_cases h1 : d.try_wait_ok a
    · simp [h1]
    · simp [h1]
      rw [if_neg (by omega : ¬ a < 4)]
      simp
  | succ n ih =>
    intro a ha
    unfold close_try_loop
    by_cases h1 : d.try_wait_ok a
    · simp [h1]
    · simp [h1]
      by_cases h2 : a < 4
      · rw [if_pos h2]
        have := ih (a + 1) (by omega)
        simp
        omega
      · rw [if_neg h2]
        simp

/-- C5: `close` attempts the graceful shutdown first and kills the process
exactly when it failed; it always attempts the bounded wait for process
exit; when that wait fails it performs at most 5 non-blocking exit checks
(the initial check plus up to 4 retries) and none when the wait succeeds;
it never fails (the trace is total in the oracle); and on every path the
last step is cancelling the background drain task. -/
theorem close_shutdown_shape (d : CloseDriver) :
    (close d).head? = some CloseEvent.closeBrowser ∧
    (CloseEvent.kill ∈ close d ↔ d.close_ok = false) ∧
    CloseEvent.waitExit ∈ close d ∧
    (close d).getLast? = some CloseEvent.abortHandle ∧
    (d.wait_ok = true → (close d).countP isTryWait = 0) ∧
    (close d).countP isTryWait ≤ 5 := by
  have hmem : ∀ e ∈ close_try_loop d 0, ∃ k, e = CloseEvent.tryWait k :=
    close_try_loop_mem d 4 0 (by omega)
  have hlen : (close_try_loop d 0).length ≤ 5 := by
    have := close_try_loop_length d 4 0 (by omega)
    omega
  refine ⟨?_, ?_, ?_, ?_, ?_, ?_⟩
  · unfold close
    cases d.close_ok <;> rfl
  · unfold close
    cases hco : d.close_ok with
    | false => simp
    | true =>
      simp only [if_true, reduceIte]
      constructor
      · intro hk
        exfalso
        rcases List.mem_append.1 hk with hk | hk
        · rcases List.mem_append.1 hk with hk | hk
          · simp at hk
          · by_cases hwo : d.wait_ok = true
            · rw [if_pos hwo] at hk
              simp at hk
            · rw [if_neg hwo] at hk
              rcases List.mem_cons.1 hk with hk | hk
              · simp at hk
              · obtain ⟨k, hk'⟩ := hmem _ hk
                simp at hk'
        · simp at hk
      · intro h
        simp at h
  · unfold close
    cases hwo : d.wait_ok <;> simp
  · unfold close
    rw [List.getLast?_concat]
  · intro hwo
    unfold close
    rw [hwo]
    cases d.close_ok <;> simp [isTryWait]
  · unfold close
    cases hwo : d.wait_ok
    · simp only [List.countP_append]
      have h1 : (close_try_loop d 0).countP isTryWait ≤ 5 :=
        le_trans (List.countP_le_length _) hlen
      cases d.close_ok <;> simp [isTryWait, List.countP_cons] <;> omega
    · cases d.close_ok <;> simp [isTryWait]

/-- C1: when the proxy switch (if configured), the blank-page open, the
user-agent application (if configured), the cookie application (if any
cookies) and the navigation issuance all succeed, `open_with_param`
performs exactly the spec's steps (1)–(8) in the spec's order and returns
the opened page — whatever the outcomes of the best-effort stealth
injection, of the navigation-completion wait, and of the best-effort
selector wait, all of which are swallowed. Contrapositively, the call can
fail only on a hard failure of steps (1)–(4) or navigation issuance. -/
theorem open_with_param_step_order (d : Driver) (tm : BrowserTimings) (url : String)
    (param : PageParam) (page : Page)
    (hpx : ∀ proxy, param.proxy = some proxy → (set_proxy d tm proxy).1 = Except.ok ())
    (hnp : d.new_page "about:blank" = Except.ok page)
    (hua : ∀ ua, param.user_agent = some ua → d.set_user_agent page ua = Except.ok ())
    (hck : param.cookies ≠ [] → d.set_cookies page param.cookies = Except.ok ())
    (hgoto : d.goto page url = Except.ok ()) :
    open_with_param d tm url param =
      EM.mk (Except.ok page) (specTrace_open_with_param tm url param page) := by
  have hpxtr : ∀ proxy, param.proxy = some proxy → (set_proxy d tm proxy).2 =
      [Event.newPage ("chrome://set_proxy/" ++ proxy), Event.sleep tm.set_proxy_sleep] :=
    fun proxy hp => set_proxy_ok_trace d tm proxy (hpx proxy hp)
  obtain ⟨pxy, wfe, ua, cks, st, dur⟩ := param
  rcases pxy with _ | proxy <;>
  rcases ua with _ | uav <;>
  rcases wfe with _ | ⟨sel, tmo⟩ <;>
  cases st <;>
  rcases cks with _ | ⟨ck, cks⟩ <;>
  simp [open_with_param, specTrace_open_with_param, EM.bind_eq, EM.bind, EM.pure_def,
    new_page, emRes, emSleep, EM.swallow, EM.mk, open_on_page,
    page_wait_for_element_with_timeout, hpx, hpxtr, hnp, hua, hck, hgoto]

/-- C1 check: the full-featured parameter bundle on an all-successful
driver produces exactly the spec-ordered trace and returns the page. -/
theorem open_with_param_step_order_check :
    open_with_param drvAllOk tm0 "https://example.com" paramFull =
      EM.mk (Except.ok pageW)
        (specTrace_open_with_param tm0 "https://example.com" paramFull pageW) :=
  open_with_param_step_order drvAllOk tm0 "https://example.com" paramFull pageW
    (fun _ _ => rfl) rfl (fun _ _ => rfl) (fun _ => rfl) rfl

/-- C5 check: on a driver whose process is already gone (graceful close
and bounded wait both succeed trivially), the trace still ends with the
drain-task cancellation and performs no `try_wait` checks. -/
theorem close_shutdown_shape_check :
    (close cdOk).getLast? = some CloseEvent.abortHandle ∧
    (close cdOk).countP isTryWait = 0 :=
  ⟨(close_shutdown_shape cdOk).2.2.2.1, (close_shutdown_shape cdOk).2.2.2.2.1 rfl⟩

/-- C7 (amended): when the page opens, the `body` element is found and its
inner text is present, `myip` parses the text as the MyIP shape and
returns the parsed value — for the spec's example body, the record with
those three fields — and attempts the page close (whose outcome is never
consulted); a present-but-unparseable body yields the serialization
error, still with the close attempted; an absent body yields the
serialization error but returns early, *without* attempting the close. -/
theorem myip_behavior (d : Driver) (tm : BrowserTimings) (page : Page) (el : Element)
    (hnp : d.new_page "about:blank" = Except.ok page)
    (hgoto : d.goto page "https://api.myip.com/" = Except.ok ())
    (hfe : d.find_element page "body" 0 = Except.ok el) :
    (∀ s v, d.inner_text el = Except.ok (some s) → myip_from_str s = some v →
      (myip d tm).1 = Except.ok v ∧ Event.closePage page ∈ (myip d tm).2) ∧
    (∀ s, d.inner_text el = Except.ok (some s) → myip_from_str s = none →
      (myip d tm).1 = Except.error BrowserError.serialization ∧
      Event.closePage page ∈ (myip d tm).2) ∧
    (d.inner_text el = Except.ok none →
      (myip d tm).1 = Except.error BrowserError.serialization ∧
      Event.closePage page ∉ (myip d tm).2) := by
  refine ⟨fun s v hit hparse => ?_, fun s hit hparse => ?_, fun hit => ?_⟩
  · simp [myip, openUrl, new_page, open_on_page, emRes, EM.bind_eq, EM.bind, EM.pure_def,
      EM.swallow, EM.mk, hnp, hgoto, hfe, hit, hparse]
  · simp [myip, openUrl, new_page, open_on_page, emRes, EM.bind_eq, EM.bind, EM.pure_def,
      EM.swallow, EM.mk, hnp, hgoto, hfe, hit, hparse]
  · simp [myip, openUrl, new_page, open_on_page, emRes, EM.bind_eq, EM.bind, EM.pure_def,
      EM.swallow, EM.mk, hnp, hgoto, hfe, hit]

/-- C7 counterexample: on a driver whose `body` lookup succeeds but whose
inner text is absent, `myip` does fail with the serialization error, yet
its trace ends at the text read: no close of the page is attempted,
against the claim's "in every case it attempts to close the page". -/
theorem myip_close_skipped_counterexample :
    (myip drvNoBody tm0).1 = Except.error BrowserError.serialization ∧
    (myip drvNoBody tm0).2 =
      [Event.newPage "about:blank", Event.goto pageW "https://api.myip.com/",
        Event.navWait pageW 700, Event.findElement pageW "body", Event.innerText elW] ∧
    Event.closePage pageW ∉ (myip drvNoBody tm0).2 :=
  ⟨rfl, rfl, by decide⟩

/-- C7 check: the three behaviors at concrete drivers — the spec's example
body parses to its three fields with the close attempted, a malformed
body fails with the close attempted, an absent body fails with no close. -/
theorem myip_behavior_check :
    ((myip drvAllOk tm0).1 =
        Except.ok { ip := "1.2.3.4", country := "Testland", cc := "TS" } ∧
      Event.closePage pageW ∈ (myip drvAllOk tm0).2) ∧
    ((myip drvBadBody tm0).1 = Except.error BrowserError.serialization ∧
      Event.closePage pageW ∈ (myip drvBadBody tm0).2) ∧
    ((myip drvNoBody tm0).1 = Except.error BrowserError.serialization ∧
      Event.closePage pageW ∉ (myip drvNoBody tm0).2) :=
  ⟨(myip_behavior drvAllOk tm0 pageW elW rfl rfl rfl).1 goodBody
      { ip := "1.2.3.4", country := "Testland", cc := "TS" } rfl rfl,
   (myip_behavior drvBadBody tm0 pageW elW rfl rfl rfl).2.1 "oops" rfl rfl,
   (myip_behavior drvNoBody tm0 pageW elW rfl rfl rfl).2.2 rfl⟩

/-- The user-agent table has no duplicate entries. -/
theorem USER_AGENT_LIST_nodup : USER_AGENT_LIST.Nodup := by decide

/-- C8: `random_user_agent` always returns an element of the fixed table
(never a value outside it), and the uniform index draw induces the uniform
distribution on entries: the multiset of outputs over the 20 equally
likely draws is exactly the table, in which every entry occurs exactly
once. Statelessness and non-exclusion of repeats are structural: the
output is a pure function of the single draw. -/
theorem random_user_agent_uniform_table :
    (∀ i, random_user_agent i ∈ USER_AGENT_LIST) ∧
    List.ofFn random_user_agent = USER_AGENT_LIST ∧
    (∀ s, s ∈ USER_AGENT_LIST → USER_AGENT_LIST.count s = 1) := by
  refine ⟨fun i => List.get_mem _ _ _, ?_, fun s hs =>
    List.count_eq_one_of_mem USER_AGENT_LIST_nodup hs⟩
  unfold random_user_agent
  exact List.ofFn_get _

/-- C8 check: the first draw lands in the table, and the table's first
entry is hit by exactly one of the 20 draws. -/
theorem random_user_agent_uniform_table_check :
    random_user_agent ⟨0, by decide⟩ ∈ USER_AGENT_LIST ∧
    USER_AGENT_LIST.count
      "Mozilla/5.0 (Windows NT 10.0; Win64; x64) AppleWebKit/537.36 (KHTML, like Gecko) Chrome/131.0.0.0 Safari/537.36" = 1 :=
  ⟨random_user_agent_uniform_table.1 ⟨0, by decide⟩,
   random_user_agent_uniform_table.2.2 _ (by decide)⟩

/-- C6 check: an element appearing at poll 3 (instant 30ms) is found under
a 31ms budget; a never-appearing element times out under a 30ms budget. -/
theorem wait_for_element_with_timeout_correct_check :
    wait_for_element_with_timeout (fun k => k == 3) 31 = Except.ok () ∧
    wait_for_element_with_timeout (fun _ => false) 30 =
      Except.error BrowserError.elementNotFoundTimeout :=
  ⟨(wait_for_element_with_timeout_correct (fun k => k == 3) 31).1
      ⟨3, by decide, by decide⟩,
   (wait_for_element_with_timeout_correct (fun _ => false) 30).2 (fun _ _ => rfl)⟩

end BrowserBridge
